import Mathlib

/-!
Verification of the duat-bhs Catppuccin colorscheme plugin (src/src/lib.rs).

The plugin registers four colorschemes (one per Catppuccin flavour) with the
host editor.  Each scheme's `apply` resolves a palette, registers a fixed
table of styles ("Forms") with the host style registry, and then invokes a
user override callback.  We embed the data model and the registration
sequence shallowly: the host style registry is a map from style names to
style definitions, a callback is a pure sequence of registrations, and
`apply` is the ordered list of `set` events it performs.
-/

set_option maxHeartbeats 1000000

/-- A style definition, as exposed by the host (`duat_core::form::Form`):
optional foreground and background colors plus boolean attributes. -/
structure Form where
  fg : Option String := none
  bg : Option String := none
  isBold : Bool := false
  isItalic : Bool := false
  isUnderlined : Bool := false
  isReversed : Bool := false
  isCrossedOut : Bool := false
  isReset : Bool := false
deriving DecidableEq

/-- `Form::new()`: the empty style. -/
def Form.new : Form := {}

/-- `Form::with(color)`: a style with the given foreground. -/
def Form.«with» (color : String) : Form := { fg := some color }

/-- `.on(color)`: set the background. -/
def Form.on (f : Form) (color : String) : Form := { f with bg := some color }

/-- `.bold()`. -/
def Form.bold (f : Form) : Form := { f with isBold := true }

/-- `.italic()`. -/
def Form.italic (f : Form) : Form := { f with isItalic := true }

/-- `.underlined()`. -/
def Form.underlined (f : Form) : Form := { f with isUnderlined := true }

/-- `.reverse()`: reverse video. -/
def Form.reverse (f : Form) : Form := { f with isReversed := true }

/-- `.crossed_out()`. -/
def Form.crossed_out (f : Form) : Form := { f with isCrossedOut := true }

/-- `.reset()`: reset to the terminal default. -/
def Form.reset (f : Form) : Form := { f with isReset := true }

/-- The palette: 26 named color slots (struct `Colors` in lib.rs). -/
structure Colors where
  rosewater : String
  flamingo : String
  pink : String
  mauve : String
  red : String
  maroon : String
  peach : String
  yellow : String
  green : String
  teal : String
  sky : String
  sapphire : String
  blue : String
  lavender : String
  text : String
  subtext1 : String
  subtext0 : String
  overlay2 : String
  overlay1 : String
  overlay0 : String
  surface2 : String
  surface1 : String
  surface0 : String
  base : String
  mantle : String
  crust : String
deriving DecidableEq

/-- The four flavours (enum `Flavour` in lib.rs, default `Mocha`). -/
inductive Flavour where
  | Latte
  | Frappe
  | Macchiato
  | Mocha
deriving DecidableEq

instance : Inhabited Flavour := ⟨Flavour.Mocha⟩

/-- `LATTE` palette constant. -/
def LATTE : Colors where
  rosewater := "#dc8a78"
  flamingo := "#dd7878"
  pink := "#ea76cb"
  mauve := "#8839ef"
  red := "#d20f39"
  maroon := "#e64553"
  peach := "#fe640b"
  yellow := "#df8e1d"
  green := "#40a02b"
  teal := "#179299"
  sky := "#04a5e5"
  sapphire := "#209fb5"
  blue := "#1e66f5"
  lavender := "#7287fd"
  text := "#4c4f69"
  subtext1 := "#5c5f77"
  subtext0 := "#6c6f85"
  overlay2 := "#7c7f93"
  overlay1 := "#8c8fa1"
  overlay0 := "#9ca0b0"
  surface2 := "#acb0be"
  surface1 := "#bcc0cc"
  surface0 := "#ccd0da"
  base := "#eff1f5"
  mantle := "#e6e9ef"
  crust := "#dce0e8"

/-- `FRAPPE` palette constant. -/
def FRAPPE : Colors where
  rosewater := "#f2d5cf"
  flamingo := "#eebebe"
  pink := "#f4b8e4"
  mauve := "#ca9ee6"
  red := "#e78284"
  maroon := "#ea999c"
  peach := "#ef9f76"
  yellow := "#e5c890"
  green := "#a6d189"
  teal := "#81c8be"
  sky := "#99d1db"
  sapphire := "#85c1dc"
  blue := "#8caaee"
  lavender := "#babbf1"
  text := "#c6d0f5"
  subtext1 := "#b5bfe2"
  subtext0 := "#a5adce"
  overlay2 := "#949cbb"
  overlay1 := "#838ba7"
  overlay0 := "#737994"
  surface2 := "#626880"
  surface1 := "#51576d"
  surface0 := "#414559"
  base := "#303446"
  mantle := "#292c3c"
  crust := "#232634"

/-- `MACCHIATO` palette constant. -/
def MACCHIATO : Colors where
  rosewater := "#f4dbd6"
  flamingo := "#f0c6c6"
  pink := "#f5bde6"
  mauve := "#c6a0f6"
  red := "#ed8796"
  maroon := "#ee99a0"
  peach := "#f5a97f"
  yellow := "#eed49f"
  green := "#a6da95"
  teal := "#8bd5ca"
  sky := "#91d7e3"
  sapphire := "#7dc4e4"
  blue := "#8aadf4"
  lavender := "#b7bdf8"
  text := "#cad3f5"
  subtext1 := "#b8c0e0"
  subtext0 := "#a5adcb"
  overlay2 := "#939ab7"
  overlay1 := "#8087a2"
  overlay0 := "#6e738d"
  surface2 := "#5b6078"
  surface1 := "#494d64"
  surface0 := "#363a4f"
  base := "#24273a"
  mantle := "#1e2030"
  crust := "#181926"

/-- `MOCHA` palette constant. -/
def MOCHA : Colors where
  rosewater := "#f5e0dc"
  flamingo := "#f2cdcd"
  pink := "#f5c2e7"
  mauve := "#cba6f7"
  red := "#f38ba8"
  maroon := "#eba0ac"
  peach := "#fab387"
  yellow := "#f9e2af"
  green := "#a6e3a1"
  teal := "#94e2d5"
  sky := "#89dceb"
  sapphire := "#74c7ec"
  blue := "#89b4fa"
  lavender := "#b4befe"
  text := "#cdd6f4"
  subtext1 := "#bac2de"
  subtext0 := "#a6adc8"
  overlay2 := "#9399b2"
  overlay1 := "#7f849c"
  overlay0 := "#6c7086"
  surface2 := "#585b70"
  surface1 := "#45475a"
  surface0 := "#313244"
  base := "#1e1e2e"
  mantle := "#181825"
  crust := "#11111b"

/-- The palette selected by `apply` (the `match self.flavour` at lib.rs 98-103). -/
def flavourColors : Flavour → Colors
  | Flavour.Latte => LATTE
  | Flavour.Frappe => FRAPPE
  | Flavour.Macchiato => MACCHIATO
  | Flavour.Mocha => MOCHA

/-- The `form::set_many!` table of `apply` (lib.rs 111-174), in source order. -/
def baseTable (c : Colors) : List (String × Form) :=
  [ ("DefaultOk", Form.«with» c.sapphire),
    ("AccentOk", (Form.«with» c.sky).bold),
    ("DefaultErr", Form.«with» c.maroon),
    ("AccentErr", (Form.«with» c.red).bold),
    ("DefaultHint", Form.«with» c.text),
    ("AccentHint", (Form.«with» c.subtext0).bold),
    ("MainCursor", Form.new.reverse),
    ("ExtraCursor", Form.new.reverse),
    ("MainSelection", (Form.«with» c.base).on c.overlay1),
    ("ExtraSelection", (Form.«with» c.base).on c.overlay0),
    ("Inactive", Form.«with» c.overlay2),
    ("LineNum", Form.«with» c.overlay2),
    ("MainLineNum", Form.«with» c.yellow),
    ("WrappedLineNum", Form.«with» c.teal),
    ("File", Form.«with» c.yellow),
    ("Selections", Form.«with» c.blue),
    ("Coord", Form.«with» c.peach),
    ("Separator", Form.«with» c.teal),
    ("Mode", Form.«with» c.green),
    ("type", (Form.«with» c.yellow).italic),
    ("type.builtin", (Form.«with» c.yellow).reset),
    ("function", (Form.«with» c.blue).reset),
    ("comment", Form.«with» c.overlay1),
    ("comment.documentation", (Form.«with» c.overlay1).bold),
    ("punctuation.bracket", Form.«with» c.subtext0),
    ("punctuation.delimiter", Form.«with» c.subtext0),
    ("constant", Form.«with» c.overlay1),
    ("constant.builtin", Form.«with» c.peach),
    ("character", Form.«with» c.peach),
    ("number", Form.«with» c.peach),
    ("variable.parameter", Form.new.italic),
    ("variable.builtin", Form.«with» c.peach),
    ("label", Form.«with» c.green),
    ("keyword", Form.«with» c.mauve),
    ("string", Form.«with» c.green),
    ("escape", Form.«with» c.peach),
    ("attribute", Form.«with» c.mauve),
    ("operator", Form.«with» c.sapphire),
    ("constructor", Form.«with» c.peach),
    ("module", (Form.«with» c.blue).italic),
    ("markup", Form.new),
    ("markup.strong", (Form.«with» c.maroon).bold),
    ("markup.italic", (Form.«with» c.maroon).italic),
    ("markup.strikethrough", Form.new.crossed_out),
    ("markup.underline", Form.new.underlined),
    ("markup.heading", (Form.«with» c.blue).bold),
    ("markup.math", Form.«with» c.yellow),
    ("markup.quote", (Form.«with» c.maroon).bold),
    ("markup.environment", Form.«with» c.pink),
    ("markup.environment.name", Form.«with» c.blue),
    ("markup.link", (Form.«with» c.lavender).underlined),
    ("markup.raw", Form.«with» c.teal),
    ("markup.list", Form.«with» c.yellow),
    ("markup.list.checked", Form.«with» c.green),
    ("markup.list.unchecked", Form.«with» c.overlay1),
    ("VertRule", Form.«with» c.subtext0),
    ("Frame", (Form.«with» c.subtext0).on c.base) ]

/-- The ordered base registration sequence of `apply` (lib.rs 105-174): the
conditional "Default" style followed by the `set_many!` table. -/
def registrations (c : Colors) (no_background : Bool) : List (String × Form) :=
  (if no_background then ("Default", Form.«with» c.text)
   else ("Default", (Form.«with» c.text).on c.base)) :: baseTable c

/-- One colorscheme object (struct `ColorScheme` in lib.rs).  The user
override callback is modelled as a pure sequence of registrations it performs
when invoked with the resolved palette. -/
structure ColorScheme where
  flavour : Flavour
  no_background : Bool
  modifications : Colors → List (String × Form)

/-- `ColorScheme::latte`. -/
def ColorScheme.latte (m : Colors → List (String × Form)) : ColorScheme :=
  { flavour := Flavour.Latte, no_background := false, modifications := m }

/-- `ColorScheme::frappe`. -/
def ColorScheme.frappe (m : Colors → List (String × Form)) : ColorScheme :=
  { flavour := Flavour.Frappe, no_background := false, modifications := m }

/-- `ColorScheme::macchiato`. -/
def ColorScheme.macchiato (m : Colors → List (String × Form)) : ColorScheme :=
  { flavour := Flavour.Macchiato, no_background := false, modifications := m }

/-- `ColorScheme::mocha`. -/
def ColorScheme.mocha (m : Colors → List (String × Form)) : ColorScheme :=
  { flavour := Flavour.Mocha, no_background := false, modifications := m }

/-- `ColorScheme::no_bg`. -/
def ColorScheme.no_bg (s : ColorScheme) (b : Bool) : ColorScheme :=
  { s with no_background := b }

/-- `ColorScheme::name` (lib.rs 179-186). -/
def ColorScheme.name (s : ColorScheme) : String :=
  match s.flavour with
  | Flavour.Latte => "catppuccin-latte"
  | Flavour.Frappe => "catppuccin-frappe"
  | Flavour.Macchiato => "catppuccin-macchiato"
  | Flavour.Mocha => "catppuccin-mocha"

/-- The ordered sequence of `form::set` events performed by
`ColorScheme::apply` (lib.rs 97-177): the base registrations for the
resolved palette, then whatever the override callback registers. -/
def ColorScheme.applyEvents (s : ColorScheme) : List (String × Form) :=
  registrations (flavourColors s.flavour) s.no_background
    ++ s.modifications (flavourColors s.flavour)

/-- The plugin configuration object (struct `Catppuccin` in lib.rs). -/
structure Catppuccin where
  no_background : Bool
  modifications : Colors → List (String × Form)

/-- `Catppuccin::new` (the `Plugin::new` impl). -/
def Catppuccin.new : Catppuccin :=
  { no_background := false, modifications := fun _ => [] }

/-- `Catppuccin::no_background`. -/
def Catppuccin.noBackground (p : Catppuccin) : Catppuccin :=
  { p with no_background := true }

/-- `Catppuccin::modify` (lib.rs 73-78): stores the given callback,
discarding its return value, in place of the previous one. -/
def Catppuccin.modify (p : Catppuccin) (m : Colors → List (String × Form)) :
    Catppuccin :=
  { p with modifications := m }

/-- `Catppuccin::plug` (lib.rs 40-47): the four colorschemes handed to
`add_colorscheme`, in call order. -/
def Catppuccin.plug (p : Catppuccin) : List ColorScheme :=
  [ (ColorScheme.latte p.modifications).no_bg p.no_background,
    (ColorScheme.frappe p.modifications).no_bg p.no_background,
    (ColorScheme.macchiato p.modifications).no_bg p.no_background,
    (ColorScheme.mocha p.modifications).no_bg p.no_background ]

/-- The host style registry, keyed by style name. -/
def Registry : Type := String → Option Form

namespace form

/-- `form::set`: upsert one style into the registry. -/
def set (n : String) (f : Form) (r : Registry) : Registry :=
  fun m => if m = n then some f else r m

end form

/-- Run a sequence of `form::set` events against a registry, in order. -/
def applyList : List (String × Form) → Registry → Registry
  | [], r => r
  | p :: l, r => applyList l (form.set p.1 p.2 r)

/-- The registry after `ColorScheme::apply` runs against `r`. -/
def ColorScheme.apply (s : ColorScheme) (r : Registry) : Registry :=
  applyList s.applyEvents r

/-- The last value written for a name by a sequence of `set` events, if any. -/
def lastWrite : List (String × Form) → String → Option Form
  | [], _ => none
  | p :: l, n =>
    match lastWrite l n with
    | some f => some f
    | none => if p.1 = n then some p.2 else none

/-- A registry whose upserts may be rejected by the host.  `apply` contains
no catch or recovery branch, so it threads each registration through the
fallible `set` and stops at the first failure. -/
def applyListE (hostSet : String → Form → Registry → Except String Registry) :
    List (String × Form) → Registry → Except String Registry
  | [], r => Except.ok r
  | p :: l, r =>
    match hostSet p.1 p.2 r with
    | Except.ok r2 => applyListE hostSet l r2
    | Except.error e => Except.error e

/-- `ColorScheme::apply` against a fallible host registry. -/
def ColorScheme.applyE (s : ColorScheme)
    (hostSet : String → Form → Registry → Except String Registry)
    (r : Registry) : Except String Registry :=
  applyListE hostSet s.applyEvents r

/-- The 26 color slots of a palette, in declaration order. -/
def paletteSlots (c : Colors) : List String :=
  [c.rosewater, c.flamingo, c.pink, c.mauve, c.red, c.maroon, c.peach,
   c.yellow, c.green, c.teal, c.sky, c.sapphire, c.blue, c.lavender,
   c.text, c.subtext1, c.subtext0, c.overlay2, c.overlay1, c.overlay0,
   c.surface2, c.surface1, c.surface0, c.base, c.mantle, c.crust]

/-- A well-formed color literal: a hash sign followed by exactly six
hexadecimal digits. -/
def isHexColor (s : String) : Bool :=
  match s.data with
  | '#' :: rest =>
    rest.length == 6 &&
      rest.all fun ch =>
        ch.isDigit || ('a' ≤ ch && ch ≤ 'f') || ('A' ≤ ch && ch ≤ 'F')
  | _ => false

/-- Modelled from the spec: the exact style-name to palette-slot mapping of
spec section 6 ("Exact style-name → palette-slot mapping ... foreground
unless noted"), in its listed order, with the "Default" background omitted
exactly when the background is suppressed.  Each entry is written as a
record literal straight from the spec's slot-and-flag notation. -/
def specStyleTable (c : Colors) (suppress_background : Bool) :
    List (String × Form) :=
  ("Default",
    if suppress_background then { fg := some c.text }
    else { fg := some c.text, bg := some c.base }) ::
  [ ("DefaultOk", { fg := some c.sapphire }),
    ("AccentOk", { fg := some c.sky, isBold := true }),
    ("DefaultErr", { fg := some c.maroon }),
    ("AccentErr", { fg := some c.red, isBold := true }),
    ("DefaultHint", { fg := some c.text }),
    ("AccentHint", { fg := some c.subtext0, isBold := true }),
    ("MainCursor", { isReversed := true }),
    ("ExtraCursor", { isReversed := true }),
    ("MainSelection", { fg := some c.base, bg := some c.overlay1 }),
    ("ExtraSelection", { fg := some c.base, bg := some c.overlay0 }),
    ("Inactive", { fg := some c.overlay2 }),
    ("LineNum", { fg := some c.overlay2 }),
    ("MainLineNum", { fg := some c.yellow }),
    ("WrappedLineNum", { fg := some c.teal }),
    ("File", { fg := some c.yellow }),
    ("Selections", { fg := some c.blue }),
    ("Coord", { fg := some c.peach }),
    ("Separator", { fg := some c.teal }),
    ("Mode", { fg := some c.green }),
    ("type", { fg := some c.yellow, isItalic := true }),
    ("type.builtin", { fg := some c.yellow, isReset := true }),
    ("function", { fg := some c.blue, isReset := true }),
    ("comment", { fg := some c.overlay1 }),
    ("comment.documentation", { fg := some c.overlay1, isBold := true }),
    ("punctuation.bracket", { fg := some c.subtext0 }),
    ("punctuation.delimiter", { fg := some c.subtext0 }),
    ("constant", { fg := some c.overlay1 }),
    ("constant.builtin", { fg := some c.peach }),
    ("character", { fg := some c.peach }),
    ("number", { fg := some c.peach }),
    ("variable.parameter", { isItalic := true }),
    ("variable.builtin", { fg := some c.peach }),
    ("label", { fg := some c.green }),
    ("keyword", { fg := some c.mauve }),
    ("string", { fg := some c.green }),
    ("escape", { fg := some c.peach }),
    ("attribute", { fg := some c.mauve }),
    ("operator", { fg := some c.sapphire }),
    ("constructor", { fg := some c.peach }),
    ("module", { fg := some c.blue, isItalic := true }),
    ("markup", {}),
    ("markup.strong", { fg := some c.maroon, isBold := true }),
    ("markup.italic", { fg := some c.maroon, isItalic := true }),
    ("markup.strikethrough", { isCrossedOut := true }),
    ("markup.underline", { isUnderlined := true }),
    ("markup.heading", { fg := some c.blue, isBold := true }),
    ("markup.math", { fg := some c.yellow }),
    ("markup.quote", { fg := some c.maroon, isBold := true }),
    ("markup.environment", { fg := some c.pink }),
    ("markup.environment.name", { fg := some c.blue }),
    ("markup.link", { fg := some c.lavender, isUnderlined := true }),
    ("markup.raw", { fg := some c.teal }),
    ("markup.list", { fg := some c.yellow }),
    ("markup.list.checked", { fg := some c.green }),
    ("markup.list.unchecked", { fg := some c.overlay1 }),
    ("VertRule", { fg := some c.subtext0 }),
    ("Frame", { fg := some c.subtext0, bg := some c.base }) ]

/-- A host registry starting empty. -/
def emptyRegistry : Registry := fun _ => none

/-- An override callback that re-registers "Default" with the empty style. -/
def overrideDefault : Colors → List (String × Form) :=
  fun _ => [("Default", Form.new)]

/-- A fallible host registry that rejects the "Default" registration and
accepts every other one. -/
def rejectDefault : String → Form → Registry → Except String Registry :=
  fun n f r =>
    if n = "Default" then Except.error "rejected" else Except.ok (form.set n f r)

/-- Running an appended event sequence runs the second part on the result of
the first. -/
theorem applyList_append (a b : List (String × Form)) :
    ∀ r : Registry, applyList (a ++ b) r = applyList b (applyList a r) := by
  induction a with
  | nil => intro r; rfl
  | cons p a ih =>
    intro r
    rw [List.cons_append, applyList, applyList, ih]

/-- Looking up a name after running a sequence of upserts returns the last
value written for that name, or the prior registry value if none was. -/
theorem applyList_lookup (l : List (String × Form)) :
    ∀ (r : Registry) (n : String),
      applyList l r n =
        match lastWrite l n with
        | some f => some f
        | none => r n := by
  induction l with
  | nil => intro r n; rfl
  | cons p l ih =>
    intro r n
    rw [applyList, ih, lastWrite]
    cases h : lastWrite l n with
    | some f => rfl
    | none =>
      by_cases hn : p.1 = n
      · simp [form.set, hn]
      · have hn2 : ¬n = p.1 := fun hh => hn hh.symm
        simp [form.set, hn, hn2]

/-- In the fallible registry, a straight-line event sequence whose prefix
succeeds and whose next registration is rejected evaluates to that
rejection: nothing later runs and nothing catches it. -/
theorem applyListE_append_error
    (hostSet : String → Form → Registry → Except String Registry)
    (p : String × Form) (l₂ : List (String × Form)) (e : String) :
    ∀ (l₁ : List (String × Form)) (r r' : Registry),
      applyListE hostSet l₁ r = Except.ok r' →
      hostSet p.1 p.2 r' = Except.error e →
      applyListE hostSet (l₁ ++ p :: l₂) r = Except.error e := by
  intro l₁
  induction l₁ with
  | nil =>
    intro r r' h1 h2
    rw [applyListE] at h1
    injection h1 with h
    subst h
    rw [List.nil_append, applyListE, h2]
  | cons q l₁ ih =>
    intro r r' h1 h2
    rw [applyListE] at h1
    cases hh : hostSet q.1 q.2 r with
    | ok r2 =>
      rw [hh] at h1
      rw [List.cons_append, applyListE, hh]
      exact ih r2 r' h1 h2
    | error e2 =>
      rw [hh] at h1
      exact Except.noConfusion h1

/-- Claim C1: for every flavor, applying the colorscheme registers exactly
the style table of spec section 6, entry for entry and in the listed order:
the "Default" style first, then the 57 further named styles (DefaultOk
through Frame), each with the palette slots and attribute flags the table
states. -/
theorem base_table_matches_spec_table (f : Flavour) (b : Bool) :
    registrations (flavourColors f) b = specStyleTable (flavourColors f) b := by
  cases b <;> rfl

/-- Claim C2: for every flavor and both values of the suppress-background
flag, the base registration sequence contains exactly one "Default" entry;
its foreground is the palette's text color and its background is present iff
the flag is false. -/
theorem default_style_unique_and_background_iff (f : Flavour) (b : Bool) :
    (registrations (flavourColors f) b).countP (fun p => p.1 == "Default") = 1 ∧
    ((registrations (flavourColors f) b).filter (fun p => p.1 == "Default")).map
        (fun p => (p.2.fg, p.2.bg.isSome))
      = [(some (flavourColors f).text, !b)] := by
  cases f <;> cases b <;> exact ⟨by decide, by decide⟩

/-- Claim C3: the override callback's registrations come exactly once, after
the whole base sequence, so if the callback's last write to "Default" is X
then the final registry entry for "Default" is X, whatever the base table
put there. -/
theorem override_invoked_once_after_base_and_wins
    (s : ColorScheme) (r : Registry) (X : Form) :
    s.applyEvents
        = registrations (flavourColors s.flavour) s.no_background
          ++ s.modifications (flavourColors s.flavour) ∧
    (lastWrite (s.modifications (flavourColors s.flavour)) "Default" = some X →
      s.apply r "Default" = some X) := by
  refine ⟨rfl, fun h => ?_⟩
  rw [ColorScheme.apply, ColorScheme.applyEvents, applyList_append,
    applyList_lookup, h]

/-- Witness for C3: a callback re-registering "Default" with the empty style
makes the final "Default" entry the empty style, for Mocha over an empty
registry. -/
theorem override_invoked_once_after_base_and_wins_witness :
    lastWrite
        ((ColorScheme.mocha overrideDefault).modifications
          (flavourColors (ColorScheme.mocha overrideDefault).flavour)) "Default"
      = some Form.new ∧
    (ColorScheme.mocha overrideDefault).apply emptyRegistry "Default"
      = some Form.new :=
  ⟨rfl,
    (override_invoked_once_after_base_and_wins
      (ColorScheme.mocha overrideDefault) emptyRegistry Form.new).2 rfl⟩

/-- Claim C4: the suppress-background flag changes no base entry other than
"Default"; in particular "Frame" keeps its explicit background, the
palette's base color, for every flavor and both flag values. -/
theorem suppress_background_only_affects_default (f : Flavour) (b : Bool) :
    (registrations (flavourColors f) b).filter (fun p => !(p.1 == "Default"))
      = (registrations (flavourColors f) false).filter
          (fun p => !(p.1 == "Default")) ∧
    (lastWrite (registrations (flavourColors f) b) "Frame").map Form.bg
      = some (some (flavourColors f).base) := by
  cases f <;> cases b <;> exact ⟨by decide, by decide⟩

/-- Claim C5: plugging registers exactly four colorschemes, in the order
Latte, Frappe, Macchiato, Mocha, named "catppuccin-latte" through
"catppuccin-mocha", all four carrying the configuration's
suppress-background flag and override callback. -/
theorem plug_registers_four_flavoured_schemes (p : Catppuccin) :
    p.plug
      = [⟨Flavour.Latte, p.no_background, p.modifications⟩,
         ⟨Flavour.Frappe, p.no_background, p.modifications⟩,
         ⟨Flavour.Macchiato, p.no_background, p.modifications⟩,
         ⟨Flavour.Mocha, p.no_background, p.modifications⟩] ∧
    p.plug.map ColorScheme.name
      = ["catppuccin-latte", "catppuccin-frappe", "catppuccin-macchiato",
         "catppuccin-mocha"] :=
  ⟨rfl, rfl⟩

/-- Claim C6: palette lookup is total on the four flavours (it is a total
Lean function), and each flavour's palette has all 26 slots non-empty and of
the form a hash sign followed by six hexadecimal digits. -/
theorem palette_lookup_total_and_hex (f : Flavour) :
    (paletteSlots (flavourColors f)).length = 26 ∧
    (paletteSlots (flavourColors f)).all
        (fun s => !(s == "") && isHexColor s) = true := by
  cases f <;> exact ⟨rfl, by decide⟩

/-- Claim C7: applying a colorscheme is idempotent on the registry: for any
flavour, flag and pure-registration override callback, applying twice equals
applying once. -/
theorem apply_idempotent (s : ColorScheme) (r : Registry) :
    s.apply (s.apply r) = s.apply r := by
  funext n
  simp only [ColorScheme.apply]
  rw [applyList_lookup, applyList_lookup]
  cases lastWrite s.applyEvents n <;> rfl

/-- Claim C8: the list of style names registered by the base resolution is
the same for every flavour and flag value, and contains no duplicates. -/
theorem base_style_names_flavour_invariant_and_nodup :
    (∀ (f₁ f₂ : Flavour) (b₁ b₂ : Bool),
      (registrations (flavourColors f₁) b₁).map Prod.fst
        = (registrations (flavourColors f₂) b₂).map Prod.fst) ∧
    ((registrations (flavourColors Flavour.Mocha) false).map Prod.fst).Nodup := by
  constructor
  · intro f₁ f₂ b₁ b₂
    cases b₁ <;> cases b₂ <;> rfl
  · decide

/-- Claim C9: apply performs no error suppression: if some registration in
its event sequence is the first to fail, the failure is the result of the
whole apply, unchanged. -/
theorem registration_failure_propagates
    (hostSet : String → Form → Registry → Except String Registry)
    (s : ColorScheme) (r r' : Registry)
    (l₁ : List (String × Form)) (p : String × Form) (l₂ : List (String × Form))
    (e : String)
    (h0 : s.applyEvents = l₁ ++ p :: l₂)
    (h1 : applyListE hostSet l₁ r = Except.ok r')
    (h2 : hostSet p.1 p.2 r' = Except.error e) :
    s.applyE hostSet r = Except.error e := by
  rw [ColorScheme.applyE, h0]
  exact applyListE_append_error hostSet p l₂ e l₁ r r' h1 h2

/-- Witness for C9: a host that rejects the "Default" registration makes the
whole Mocha apply evaluate to that rejection. -/
theorem registration_failure_propagates_witness :
    (ColorScheme.mocha fun _ => []).applyEvents
      = [] ++ ("Default", (Form.«with» MOCHA.text).on MOCHA.base)
          :: (baseTable MOCHA ++ []) ∧
    applyListE rejectDefault [] emptyRegistry = Except.ok emptyRegistry ∧
    rejectDefault "Default" ((Form.«with» MOCHA.text).on MOCHA.base)
        emptyRegistry = Except.error "rejected" ∧
    (ColorScheme.mocha fun _ => []).applyE rejectDefault emptyRegistry
      = Except.error "rejected" :=
  ⟨rfl, rfl, rfl,
    registration_failure_propagates rejectDefault
      (ColorScheme.mocha fun _ => []) emptyRegistry emptyRegistry []
      ("Default", (Form.«with» MOCHA.text).on MOCHA.base)
      (baseTable MOCHA ++ []) "rejected" (by rfl) rfl rfl⟩

/-- Claim C10: modify replaces the stored callback: chaining two modify
calls equals a single modify with the later callback, and every scheme
produced by plug carries only that later callback. -/
theorem modify_replaces_previous_callback
    (p : Catppuccin) (m₁ m₂ : Colors → List (String × Form)) :
    (p.modify m₁).modify m₂ = p.modify m₂ ∧
    (((p.modify m₁).modify m₂).plug).map ColorScheme.modifications
      = [m₂, m₂, m₂, m₂] :=
  ⟨rfl, rfl⟩

